import Mathlib

/-!
Shallow embedding of the cloud-service orchestration logic of the
feathers-cloud-service repository.

Source files embedded:
  - src/constants.js                                  (CLOUD_SITES, AWS_ERROR_CODES)
  - src/libs/aws.js                                   (createS3Client, createS3Bucket,
                                                       getBucketList, s3Upload, getS3File,
                                                       updateS3File)
  - src/services/cloud-service/cloud-builder.class.js (CloudBuilder: create, find, get,
                                                       update, addObjectS3, saveToDatabase,
                                                       getMediaById, getMedia, updateMediaById)

Modelling conventions:
  - JavaScript string-ish values that are only truthiness-tested and passed along
    (region, bucket, keys) are modelled as `String`, with `""` standing for the
    falsy values undefined / null / empty string; `strTruthy` is JS truthiness.
  - Objects that may be undefined are `Option _`; a property access or destructuring
    on undefined throws a TypeError (an error without a `Code` property).
  - Every await on a collaborator (AWS SDK call, settings service, media-store
    service) is a field of `Env` returning `Except JsErr _`; each such call also
    appends an `Event` to a trace so that "no provider call was attempted" is a
    statement about the trace.
  - A computation is `MRes α := Except JsErr α × List Event`: the result of the
    body of a try-block together with every collaborator call it performed.
    `mbind` sequences two computations, accumulating the trace even when the
    second one throws (JS side effects persist across a throw).
  - `logger.*` calls are side-effect free for the program state and are not modelled.
  - The internal try/catch blocks of libs/aws.js only log and rethrow, which is
    semantically the identity; they are not modelled separately.
-/

namespace CloudSvc

/-- JS truthiness of a string value: undefined / null / "" are falsy, all modelled "" -/
def strTruthy (s : String) : Bool := s ≠ ""

/-- errors thrown inside a handler body: TypeErrors and plain `new Error(...)` have no
`Code` property; AWS SDK service errors carry one. -/
inductive JsErr where
  | typeError (msg : String)
  | jsError (msg : String)
  | provider (code : String)
deriving DecidableEq

/-- the JS expression `e.Code`: undefined unless the error is a provider error. -/
def JsErr.codeOf : JsErr → Option String
  | .provider c => some c
  | _ => none

/- constants.js -/

namespace CLOUD_SITES
def S3 : String := "s3"
end CLOUD_SITES

namespace AWS_ERROR_CODES
def NO_SUCH_BUCKET : String := "NoSuchBucket"
def INVALID_BUCKET_NAME : String := "InvalidBucketName"
def BUCKET_ALREADY_EXISTS : String := "BucketAlreadyExists"
def BUCKET_ALREADY_OWNED_BY_YOU : String := "BucketAlreadyOwnedByYou"
end AWS_ERROR_CODES

/- data shapes -/

/-- one entry of a user's saved awsS3 credential sets -/
structure S3Cred where
  label : String
  accessKey : String
  secretKey : String
deriving DecidableEq

/-- the S3 client value built by createS3Client -/
structure S3Client where
  region : String
  accessKeyId : String
  secretAccessKey : String
deriving DecidableEq

/-- the AWS SDK upload response (Location / Bucket / Key) -/
structure UploadedFile where
  location : String
  bucket : String
  key : String
deriving DecidableEq

/-- one bucket summary from listBuckets -/
structure BucketInfo where
  name : String
deriving DecidableEq

/-- the listBuckets response; `buckets` is its `.Buckets` field -/
structure ListBucketsOut where
  buckets : List BucketInfo
deriving DecidableEq

/-- a persisted media-store document -/
structure MediaRecord where
  mid : String
  userId : String
  name : String
  thumb : String
  key : String
  bucket : String
  region : String
  type : String
  cloud : String
deriving DecidableEq

/-- the document passed to mediaStoreService.create (no id yet) -/
structure NewMediaRecord where
  userId : String
  name : String
  thumb : String
  key : String
  bucket : String
  region : String
  type : String
  cloud : String
deriving DecidableEq

/-- a settings document; its awsS3 field may be absent -/
structure SettingsDoc where
  awsS3 : Option (List S3Cred)
deriving DecidableEq

/-- paginated result of settingsService.find -/
structure SettingsFindOut where
  data : List SettingsDoc
deriving DecidableEq

/-- paginated result of mediaStoreService.find -/
structure MediaFindOut where
  data : List MediaRecord
deriving DecidableEq

/-- events: one per collaborator call actually issued (the AWS SDK calls are the
provider calls; the media-store calls are the metadata reads/writes). -/
inductive Event where
  | s3CreateBucket (client : S3Client) (bucket : String)
  | s3ListBuckets (client : S3Client)
  | s3Upload (client : S3Client) (bucket key body : String)
  | s3GetObject (client : S3Client) (bucket key : String)
  | s3PutObject (client : S3Client) (bucket key body : String)
  | mediaCreate (doc : NewMediaRecord)
  | mediaGet (id : String)
  | mediaFind (query : List (String × String))
  | mediaPatch (id : String) (name : String)
deriving DecidableEq

/-- the external collaborators: settings service, AWS SDK endpoints, media-store
service, plus the process environment variables read by libs/aws.js. -/
structure Env where
  settingsFind : Option String → Except JsErr SettingsFindOut
  s3CreateBucket : S3Client → String → Except JsErr Unit
  s3ListBuckets : S3Client → Except JsErr ListBucketsOut
  s3UploadDone : S3Client → String → String → String → Except JsErr UploadedFile
  s3GetObject : S3Client → String → String → Except JsErr String
  s3PutObject : S3Client → String → String → String → Except JsErr Unit
  mediaCreate : NewMediaRecord → Except JsErr MediaRecord
  mediaGet : String → Except JsErr MediaRecord
  mediaFind : List (String × String) → Except JsErr MediaFindOut
  mediaPatch : String → String → Except JsErr MediaRecord
  s3Directory : String
  s3RegionEnv : String

/-- result of a try-block body: the value or the thrown error, with the trace of
collaborator calls performed before finishing. -/
abbrev MRes (α : Type) := Except JsErr α × List Event

/-- sequence two computations; the trace accumulates even when the tail throws. -/
def mbind {α β : Type} (x : MRes α) (f : α → MRes β) : MRes β :=
  match x with
  | (Except.error e, t) => (Except.error e, t)
  | (Except.ok a, t) => ((f a).1, t ++ (f a).2)

@[simp] theorem mbind_ok {α β : Type} (a : α) (t : List Event) (f : α → MRes β) :
    mbind (Except.ok a, t) f = ((f a).1, t ++ (f a).2) := rfl

@[simp] theorem mbind_error {α β : Type} (e : JsErr) (t : List Event) (f : α → MRes β) :
    mbind (Except.error e, t) f = (Except.error e, t) := rfl

/-- string interpolation of a possibly-undefined JS value -/
def jsShow : Option String → String
  | none => "undefined"
  | some s => s

/- libs/aws.js -/

/-- createS3Client: throws when either key is falsy, defaults region to us-east-1. -/
def createS3Client (accessKeyId secretAccessKey region : String) : Except JsErr S3Client :=
  if !strTruthy accessKeyId || !strTruthy secretAccessKey then
    Except.error (JsErr.jsError "Invalid input from the client side")
  else
    Except.ok { region := if strTruthy region then region else "us-east-1",
                accessKeyId := accessKeyId, secretAccessKey := secretAccessKey }

/-- createS3Bucket(s3Data, region, name): builds a client from the credential set,
then issues the SDK createBucket call. -/
def createS3Bucket (env : Env) (s3Data : S3Cred) (region name : String) : MRes Unit :=
  match createS3Client s3Data.accessKey s3Data.secretKey region with
  | Except.error e => (Except.error e, [])
  | Except.ok s3 => (env.s3CreateBucket s3 name, [Event.s3CreateBucket s3 name])

/-- the runtime value passed as getBucketList's s3Data argument: the intended
credential object, or the raw awsS3 array the caller actually passes. -/
inductive S3DataArg where
  | credObj (c : S3Cred)
  | credList (l : List S3Cred)
deriving DecidableEq

/-- JS property access `s3Data.accessKey`: an array has no such property, so
destructuring it yields undefined (falsy, modelled ""). -/
def S3DataArg.accessKeyOf : S3DataArg → String
  | .credObj c => c.accessKey
  | .credList _ => ""

/-- JS property access `s3Data.secretKey` on the argument value. -/
def S3DataArg.secretKeyOf : S3DataArg → String
  | .credObj c => c.secretKey
  | .credList _ => ""

/-- getBucketList(s3Data): destructures accessKey/secretKey from its argument
(a TypeError when the argument is undefined), builds a client with the
process-wide S3_REGION, then lists buckets. -/
def getBucketList (env : Env) (s3Data : Option S3DataArg) : MRes ListBucketsOut :=
  match s3Data with
  | none => (Except.error (JsErr.typeError "cannot destructure accessKey of undefined"), [])
  | some arg =>
    match createS3Client arg.accessKeyOf arg.secretKeyOf env.s3RegionEnv with
    | Except.error e => (Except.error e, [])
    | Except.ok s3 => (env.s3ListBuckets s3, [Event.s3ListBuckets s3])

/-- the { region, awsS3 } credentials object built by addObjectS3 for s3Upload -/
structure UploadCredentials where
  awsS3 : S3Cred
  region : String
deriving DecidableEq

/-- the value returned by s3Upload -/
structure UploadRet where
  location : String
  bucket : String
  key : String
deriving DecidableEq

/-- fields of the create request payload used below -/
structure CreateData where
  cloud : String
  awsAccount : String
  bucket : String
  newBucket : Bool
  region : String
  name : String
  html : String
deriving DecidableEq

/-- the object key `S3_DIRECTORY/userId/fileDetail.name` built by s3Upload -/
def keyOf (env : Env) (userId : Option String) (fileDetail : CreateData) : String :=
  env.s3Directory ++ "/" ++ jsShow userId ++ "/" ++ fileDetail.name

/-- s3Upload(userId, fileDetail, bucket, credentials): builds a client from
credentials.awsS3 and credentials.region, uploads under the key
S3_DIRECTORY/userId/fileDetail.name, returns location/bucket/key of the response. -/
def s3Upload (env : Env) (userId : Option String) (fileDetail : CreateData) (bucket : String)
    (credentials : UploadCredentials) : MRes UploadRet :=
  match createS3Client credentials.awsS3.accessKey credentials.awsS3.secretKey credentials.region with
  | Except.error e => (Except.error e, [])
  | Except.ok s3 =>
    let key := keyOf env userId fileDetail
    match env.s3UploadDone s3 bucket key fileDetail.html with
    | Except.error e => (Except.error e, [Event.s3Upload s3 bucket key fileDetail.html])
    | Except.ok uf =>
      (Except.ok { location := uf.location, bucket := uf.bucket, key := uf.key },
       [Event.s3Upload s3 bucket key fileDetail.html])

/-- the credentials object getS3File and updateS3File expect -/
structure FileCredentials where
  accessKey : String
  secretKey : String
  region : String
deriving DecidableEq

/-- the value returned by getS3File -/
structure GetFileOut where
  body : String
deriving DecidableEq

/-- getS3File(key, bucket, credentials): reads credentials.accessKey (a TypeError
when the argument is undefined), builds a client, fetches the object body. -/
def getS3File (env : Env) (key bucket : String) (credentials : Option FileCredentials) :
    MRes GetFileOut :=
  match credentials with
  | none => (Except.error (JsErr.typeError "cannot read accessKey of undefined"), [])
  | some c =>
    match createS3Client c.accessKey c.secretKey c.region with
    | Except.error e => (Except.error e, [])
    | Except.ok s3 =>
      match env.s3GetObject s3 bucket key with
      | Except.error e => (Except.error e, [Event.s3GetObject s3 bucket key])
      | Except.ok buf => (Except.ok { body := buf }, [Event.s3GetObject s3 bucket key])

/-- the value returned by updateS3File: note the hard-coded empty location. -/
structure UpdateFileOut where
  location : String
deriving DecidableEq

/-- updateS3File(userId, body, fileDetail, credentials): reads credentials.accessKey
(a TypeError when the argument is undefined), builds a client with the record's
region, overwrites the object, returns { location: "" }. -/
def updateS3File (env : Env) (_userId : String) (body : String) (fileDetail : MediaRecord)
    (credentials : Option FileCredentials) : MRes UpdateFileOut :=
  match credentials with
  | none => (Except.error (JsErr.typeError "cannot read accessKey of undefined"), [])
  | some c =>
    match createS3Client c.accessKey c.secretKey fileDetail.region with
    | Except.error e => (Except.error e, [])
    | Except.ok s3 =>
      match env.s3PutObject s3 fileDetail.bucket fileDetail.key body with
      | Except.error e => (Except.error e, [Event.s3PutObject s3 fileDetail.bucket fileDetail.key body])
      | Except.ok _ => (Except.ok { location := "" }, [Event.s3PutObject s3 fileDetail.bucket fileDetail.key body])

/- cloud-builder.class.js : CloudBuilder -/

/-- the authenticated user carried by params -/
structure User where
  uid : String
deriving DecidableEq

/-- handler params: `params.user` may be absent -/
structure Params where
  user : Option User
deriving DecidableEq

/-- the `data` slot of create's `{ status, data }` result: the string message,
the undefined left from a non-s3 request, or the upload payload. -/
inductive CreateResData where
  | undef
  | msg (s : String)
  | payload (location mid name : String)
deriving DecidableEq

/-- the `{ status, data }` value create returns -/
structure CreateResult where
  status : String
  data : CreateResData
deriving DecidableEq

/-- the value addObjectS3 returns: { location, _id, name } -/
structure AddObjectOut where
  location : String
  mid : String
  name : String
deriving DecidableEq

/-- the media document saveToDatabase passes to mediaStoreService.create -/
def mediaDocOf (uploadedData : UploadRet) (fileDetail : CreateData)
    (userId : Option String) (region : String) : NewMediaRecord :=
  { userId := jsShow userId, name := fileDetail.name, thumb := uploadedData.location,
    key := uploadedData.key, bucket := uploadedData.bucket, region := region,
    type := "html", cloud := fileDetail.cloud }

/-- saveToDatabase(uploadedData, fileDetail, userId, region): builds the media
document and issues mediaStoreService.create. -/
def saveToDatabase (env : Env) (uploadedData : UploadRet) (fileDetail : CreateData)
    (userId : Option String) (region : String) : MRes MediaRecord :=
  (env.mediaCreate (mediaDocOf uploadedData fileDetail userId region),
   [Event.mediaCreate (mediaDocOf uploadedData fileDetail userId region)])

/-- getMediaById(id): mediaStoreService.get(id). -/
def getMediaById (env : Env) (id : String) : MRes MediaRecord :=
  (env.mediaGet id, [Event.mediaGet id])

/-- getMedia(query): mediaStoreService.find({ query }). -/
def getMedia (env : Env) (query : List (String × String)) : MRes MediaFindOut :=
  (env.mediaFind query, [Event.mediaFind query])

/-- updateMediaById(id, { name }): mediaStoreService.patch(id, { name }). -/
def updateMediaById (env : Env) (id : String) (name : String) : MRes MediaRecord :=
  (env.mediaPatch id name, [Event.mediaPatch id name])

/-- the guarded `if (data.bucket && data.newBucket) await createS3Bucket(...)`
opening addObjectS3 -/
def bucketStep (env : Env) (data : CreateData) (awsS3 : S3Cred) : MRes Unit :=
  if strTruthy data.bucket && data.newBucket then
    createS3Bucket env awsS3 data.region data.bucket
  else (Except.ok (), [])

/-- the region inference of addObjectS3: keep data.region when truthy, otherwise
take the region of the user's first prior media record for that bucket. -/
def regionStep (env : Env) (data : CreateData) (userId : Option String) : MRes String :=
  if strTruthy data.region then (Except.ok data.region, [])
  else
    mbind (getMedia env [("userId", jsShow userId), ("bucket", data.bucket)]) fun mediaObj =>
    (Except.ok (match mediaObj.data.head? with
                | some r0 => r0.region
                | none => ""), [])

/-- addObjectS3(data, awsS3, userId): optionally create the bucket, infer the
region from the user's prior records for that bucket when none is supplied,
upload, persist the media record, return { location, _id, name }. -/
def addObjectS3 (env : Env) (data : CreateData) (awsS3 : S3Cred) (userId : Option String) :
    MRes AddObjectOut :=
  mbind (bucketStep env data awsS3) fun _ =>
  mbind (regionStep env data userId) fun region =>
  mbind (s3Upload env userId data data.bucket { awsS3 := awsS3, region := region }) fun uploadedData =>
  mbind (saveToDatabase env uploadedData data userId region) fun savedData =>
  (Except.ok { location := uploadedData.location, mid := savedData.mid, name := savedData.name }, [])

/-- the try-block of create: resolve settings, pick the credential set by label,
and on the s3 branch validate the keys and run addObjectS3. The early returns
inside the try-block are ok-results; thrown errors go to the catch. -/
def createBody (env : Env) (data : CreateData) (params : Params) : MRes CreateResult :=
  let userId := params.user.map User.uid
  mbind (env.settingsFind userId, []) fun settings =>
  match settings.data.head? with
  | none => (Except.error (JsErr.typeError "cannot destructure awsS3 of undefined"), [])
  | some doc =>
    match doc.awsS3 with
    | none => (Except.error (JsErr.typeError "cannot read find of undefined"), [])
    | some awsS3 =>
      let selectedAWSS3 := awsS3.find? (fun s3 => s3.label == data.awsAccount)
      if data.cloud == CLOUD_SITES.S3 then
        match selectedAWSS3 with
        | none => (Except.ok { status := "error", data := .msg "AWS credentials are missing." }, [])
        | some cred =>
          if !strTruthy cred.secretKey || !strTruthy cred.accessKey then
            (Except.ok { status := "error", data := .msg "AWS credentials are missing." }, [])
          else
            mbind (addObjectS3 env data cred userId) fun u =>
            (Except.ok { status := "success", data := .payload u.location u.mid u.name }, [])
      else
        (Except.ok { status := "success", data := .undef }, [])

/-- the catch-block of create: `switch (e.Code)` over the four AWS error codes. -/
def createCatch (e : JsErr) : CreateResult :=
  match e.codeOf with
  | some c =>
    if c = AWS_ERROR_CODES.NO_SUCH_BUCKET then
      { status := "error", data := .msg "The specified bucket does not exist." }
    else if c = AWS_ERROR_CODES.INVALID_BUCKET_NAME then
      { status := "error", data := .msg "The specified bucket is not valid." }
    else if c = AWS_ERROR_CODES.BUCKET_ALREADY_EXISTS then
      { status := "error", data := .msg "The specified bucket already exists." }
    else if c = AWS_ERROR_CODES.BUCKET_ALREADY_OWNED_BY_YOU then
      { status := "error", data := .msg "The specified bucket already owned by you." }
    else
      { status := "error", data := .msg "Something went wrong. Please try again!" }
  | none => { status := "error", data := .msg "Something went wrong. Please try again!" }

/-- CloudBuilder.create(data, params): the try-block and its catch. -/
def create (env : Env) (data : CreateData) (params : Params) : CreateResult × List Event :=
  match createBody env data params with
  | (Except.ok r, t) => (r, t)
  | (Except.error e, t) => (createCatch e, t)

/-- find's query object: whether the bucketList key is present (the `in` test),
and its own enumerable entries as a key/value map. -/
structure FindQuery where
  hasBucketList : Bool
  fields : List (String × String)
deriving DecidableEq

/-- params of find -/
structure FindParams where
  query : FindQuery
  user : Option User
deriving DecidableEq

/-- the `data` slot of find's result -/
inductive FindResData where
  | msg (s : String)
  | buckets (l : List BucketInfo)
  | media (d : MediaFindOut)
deriving DecidableEq

/-- the `{ status, data }` value find returns -/
structure FindResult where
  status : String
  data : FindResData
deriving DecidableEq

/-- the object spread `{ ...params.query, type: "html" }` viewed as a key/value
map (entry order is immaterial to the query's meaning). -/
def withTypeHtml (q : List (String × String)) : List (String × String) :=
  q.filter (fun p => p.fst ≠ "type") ++ [("type", "html")]

/-- the try-block of find: the bucketList branch resolves settings and lists
buckets with the raw awsS3 array as getBucketList's argument; the other branch
queries media records with type forced to html. -/
def findBody (env : Env) (params : FindParams) : MRes FindResult :=
  if params.query.hasBucketList then
    let userId := params.user.map User.uid
    mbind (env.settingsFind userId, []) fun settings =>
    match settings.data.head? with
    | none => (Except.error (JsErr.typeError "cannot destructure awsS3 of undefined"), [])
    | some doc =>
      mbind (getBucketList env (doc.awsS3.map S3DataArg.credList)) fun list =>
      (Except.ok { status := "success", data := .buckets list.buckets }, [])
  else
    mbind (getMedia env (withTypeHtml params.query.fields)) fun d =>
    (Except.ok { status := "success", data := .media d }, [])

/-- CloudBuilder.find(params): the try-block and its generic catch. -/
def find (env : Env) (params : FindParams) : FindResult × List Event :=
  match findBody env params with
  | (Except.ok r, t) => (r, t)
  | (Except.error _, t) =>
    ({ status := "error", data := .msg "Something went wrong. Please try again!" }, t)

/-- the `data` slot of get's result -/
inductive GetResData where
  | msg (s : String)
  | file (d : GetFileOut)
deriving DecidableEq

/-- the `{ status, data }` value get returns -/
structure GetResult where
  status : String
  data : GetResData
deriving DecidableEq

/-- the try-block of get: look the record up, then call getS3File with only two
arguments — the credentials parameter is left undefined at the call site. -/
def getBody (env : Env) (id : String) : MRes GetResult :=
  mbind (getMediaById env id) fun file =>
  mbind (getS3File env file.key file.bucket none) fun d =>
  (Except.ok { status := "success", data := .file d }, [])

/-- CloudBuilder.get(id, params): the try-block and its generic catch. -/
def get (env : Env) (id : String) (_params : Params) : GetResult × List Event :=
  match getBody env id with
  | (Except.ok r, t) => (r, t)
  | (Except.error _, t) =>
    ({ status := "error", data := .msg "Something went wrong. Please try again!" }, t)

/-- the data payload of update: { _id, html, name } -/
structure UpdateData where
  mid : String
  html : String
  name : String
deriving DecidableEq

/-- the `data` slot of update's result -/
inductive UpdateResData where
  | msg (s : String)
  | locName (location name : String)
deriving DecidableEq

/-- the `{ status, data }` value update returns -/
structure UpdateResult where
  status : String
  data : UpdateResData
deriving DecidableEq

/-- the try-block of update: look the record up by data._id, then call
updateS3File with only three arguments — the credentials parameter is left
undefined at the call site (params.user._id is read without optional chaining,
a TypeError when user is absent) — then patch the record's name. -/
def updateBody (env : Env) (_id : String) (data : UpdateData) (params : Params) :
    MRes UpdateResult :=
  mbind (getMediaById env data.mid) fun file =>
  mbind (match params.user with
         | none => (Except.error (JsErr.typeError "cannot read uid of undefined"), [])
         | some u => (Except.ok u.uid, [])) fun uid =>
  mbind (updateS3File env uid data.html file none) fun updatedData =>
  mbind (updateMediaById env data.mid data.name) fun mediaFile =>
  (Except.ok { status := "success", data := .locName updatedData.location mediaFile.name }, [])

/-- CloudBuilder.update(id, data, params): the try-block and its generic catch. -/
def update (env : Env) (id : String) (data : UpdateData) (params : Params) :
    UpdateResult × List Event :=
  match updateBody env id data params with
  | (Except.ok r, t) => (r, t)
  | (Except.error _, t) =>
    ({ status := "error", data := .msg "Something went wrong. Please try again!" }, t)

/-- the guard `!selectedAWSS3?.secretKey || !selectedAWSS3?.accessKey` of create -/
def credentialsMissing : Option S3Cred → Bool
  | none => true
  | some c => !strTruthy c.secretKey || !strTruthy c.accessKey

/- helper lemmas -/

/-- the client createS3Client builds when both keys are truthy -/
def clientOf (accessKey secretKey region : String) : S3Client :=
  { region := if strTruthy region then region else "us-east-1",
    accessKeyId := accessKey, secretAccessKey := secretKey }

theorem createS3Client_eq {a s : String} (r : String)
    (ha : strTruthy a = true) (hs : strTruthy s = true) :
    createS3Client a s r = Except.ok (clientOf a s r) := by
  unfold createS3Client clientOf
  rw [ha, hs]
  rfl

theorem mem_mbind_trace {α β : Type} (x : MRes α) (f : α → MRes β) (ev : Event) :
    ev ∈ (mbind x f).2 ↔ ev ∈ x.2 ∨ ∃ a, x.1 = Except.ok a ∧ ev ∈ (f a).2 := by
  rcases x with ⟨r, t⟩
  cases r <;> simp [mbind]

theorem createCatch_status (e : JsErr) : (createCatch e).status = "error" := by
  unfold createCatch
  cases e.codeOf
  · rfl
  · dsimp only
    split_ifs <;> rfl

theorem create_trace_eq (env : Env) (data : CreateData) (params : Params) :
    (create env data params).2 = (createBody env data params).2 := by
  unfold create
  rcases h : createBody env data params with ⟨r, t⟩
  cases r <;> simp [h]

/- C3 and C4: the get and update handlers -/

/-- C3: the call to getS3File at cloud-builder.class.js:101 omits the credentials
argument, so getS3File throws before any object-store request and get returns the
generic error for every environment and id — the uploaded content is never
returned, so the upload/get round trip cannot succeed. -/
theorem get_always_generic_error (env : Env) (id : String) (params : Params) :
    (get env id params).1 =
      { status := "error", data := .msg "Something went wrong. Please try again!" } := by
  unfold get getBody getMediaById getS3File
  cases h : env.mediaGet id <;> simp [mbind, h]

/-- C4: the call to updateS3File at cloud-builder.class.js:124 omits the credentials
argument, so updateS3File throws before any object-store request and update returns
the generic error for every environment and input — it never returns the updated
location and name with status success. -/
theorem update_always_generic_error (env : Env) (id : String) (data : UpdateData)
    (params : Params) :
    (update env id data params).1 =
      { status := "error", data := .msg "Something went wrong. Please try again!" } := by
  unfold update updateBody getMediaById updateS3File
  cases h : env.mediaGet data.mid <;> cases hu : params.user <;> simp [mbind, h, hu]

/- characterization of the s3 path -/

theorem bucketStep_skip (env : Env) (data : CreateData) (awsS3 : S3Cred)
    (h : (strTruthy data.bucket && data.newBucket) = false) :
    bucketStep env data awsS3 = (Except.ok (), []) := by
  simp [bucketStep, h]

theorem bucketStep_run (env : Env) (data : CreateData) (awsS3 : S3Cred)
    (h : (strTruthy data.bucket && data.newBucket) = true)
    (hacc : strTruthy awsS3.accessKey = true) (hsec : strTruthy awsS3.secretKey = true) :
    bucketStep env data awsS3 =
      (env.s3CreateBucket (clientOf awsS3.accessKey awsS3.secretKey data.region) data.bucket,
       [Event.s3CreateBucket (clientOf awsS3.accessKey awsS3.secretKey data.region) data.bucket]) := by
  simp [bucketStep, h, createS3Bucket, createS3Client_eq data.region hacc hsec]

theorem regionStep_supplied (env : Env) (data : CreateData) (uid : Option String)
    (h : strTruthy data.region = true) :
    regionStep env data uid = (Except.ok data.region, []) := by
  simp [regionStep, h]

theorem regionStep_infer (env : Env) (data : CreateData) (uid : Option String)
    (out : MediaFindOut)
    (h : strTruthy data.region = false)
    (hm : env.mediaFind [("userId", jsShow uid), ("bucket", data.bucket)] = Except.ok out) :
    regionStep env data uid =
      (Except.ok (match out.data.head? with | some r0 => r0.region | none => ""),
       [Event.mediaFind [("userId", jsShow uid), ("bucket", data.bucket)]]) := by
  simp [regionStep, h, getMedia, hm, mbind]

theorem s3Upload_run (env : Env) (uid : Option String) (data : CreateData) (bucket : String)
    (cred : S3Cred) (region : String)
    (hacc : strTruthy cred.accessKey = true) (hsec : strTruthy cred.secretKey = true) :
    s3Upload env uid data bucket { awsS3 := cred, region := region } =
      (match env.s3UploadDone (clientOf cred.accessKey cred.secretKey region) bucket
               (keyOf env uid data) data.html with
       | Except.error e => (Except.error e,
           [Event.s3Upload (clientOf cred.accessKey cred.secretKey region) bucket
             (keyOf env uid data) data.html])
       | Except.ok uf => (Except.ok { location := uf.location, bucket := uf.bucket, key := uf.key },
           [Event.s3Upload (clientOf cred.accessKey cred.secretKey region) bucket
             (keyOf env uid data) data.html])) := by
  unfold s3Upload
  rw [createS3Client_eq region hacc hsec]

/-- every event of the region step is a mediaFind event -/
theorem regionStep_trace (env : Env) (data : CreateData) (uid : Option String) :
    ∀ ev ∈ (regionStep env data uid).2, ∃ q, ev = Event.mediaFind q := by
  unfold regionStep getMedia
  split
  · simp
  · cases hm : env.mediaFind [("userId", jsShow uid), ("bucket", data.bucket)] <;>
      simp [mbind, hm]

/-- every event of the upload step is an s3Upload event for the same bucket and body -/
theorem s3Upload_trace (env : Env) (uid : Option String) (data : CreateData) (bucket : String)
    (creds : UploadCredentials) :
    ∀ ev ∈ (s3Upload env uid data bucket creds).2,
      ∃ c k, ev = Event.s3Upload c bucket k data.html := by
  unfold s3Upload
  cases hc : createS3Client creds.awsS3.accessKey creds.awsS3.secretKey creds.region with
  | error e => simp
  | ok s3 =>
    cases hu : env.s3UploadDone s3 bucket (keyOf env uid data) data.html <;> simp [hu]

/-- membership in the addObjectS3 trace, step by step -/
theorem mem_addObjectS3_trace (env : Env) (data : CreateData) (awsS3 : S3Cred)
    (uid : Option String) (ev : Event) :
    ev ∈ (addObjectS3 env data awsS3 uid).2 ↔
      ev ∈ (bucketStep env data awsS3).2 ∨
      (∃ u, (bucketStep env data awsS3).1 = Except.ok u ∧
        (ev ∈ (regionStep env data uid).2 ∨
         ∃ region, (regionStep env data uid).1 = Except.ok region ∧
           (ev ∈ (s3Upload env uid data data.bucket { awsS3 := awsS3, region := region }).2 ∨
            ∃ up, (s3Upload env uid data data.bucket { awsS3 := awsS3, region := region }).1
                    = Except.ok up ∧
              ev ∈ (saveToDatabase env up data uid region).2))) := by
  simp only [addObjectS3, mem_mbind_trace, List.not_mem_nil, and_false, exists_false, or_false]

/-- with truthy keys the upload step's trace is exactly one s3Upload event with
the client built from the credential set and the chosen region -/
theorem s3Upload_trace_run (env : Env) (uid : Option String) (data : CreateData)
    (bucket : String) (cred : S3Cred) (region : String)
    (hacc : strTruthy cred.accessKey = true) (hsec : strTruthy cred.secretKey = true) :
    (s3Upload env uid data bucket { awsS3 := cred, region := region }).2 =
      [Event.s3Upload (clientOf cred.accessKey cred.secretKey region) bucket
        (keyOf env uid data) data.html] := by
  unfold s3Upload
  rw [createS3Client_eq region hacc hsec]
  dsimp only
  cases env.s3UploadDone (clientOf cred.accessKey cred.secretKey region) bucket
      (keyOf env uid data) data.html <;> rfl

/-- every event of the bucket step is an s3CreateBucket event for data.bucket -/
theorem bucketStep_trace (env : Env) (data : CreateData) (awsS3 : S3Cred) :
    ∀ ev ∈ (bucketStep env data awsS3).2, ∃ c, ev = Event.s3CreateBucket c data.bucket := by
  unfold bucketStep createS3Bucket
  split
  · cases hc : createS3Client awsS3.accessKey awsS3.secretKey data.region <;> simp [hc]
  · simp

/-- the save step's only event is the mediaCreate of the built document -/
theorem saveToDatabase_trace (env : Env) (up : UploadRet) (data : CreateData)
    (uid : Option String) (region : String) :
    (saveToDatabase env up data uid region).2 = [Event.mediaCreate (mediaDocOf up data uid region)] :=
  rfl

/-- create in the s3 branch with resolved, truthy credentials runs addObjectS3 and
wraps its outcome. -/
theorem create_s3_eq (env : Env) (data : CreateData) (params : Params)
    (settings : SettingsFindOut) (doc : SettingsDoc) (awsS3 : List S3Cred) (cred : S3Cred)
    (hs : env.settingsFind (params.user.map User.uid) = Except.ok settings)
    (hd : settings.data.head? = some doc)
    (ha : doc.awsS3 = some awsS3)
    (hf : awsS3.find? (fun s3 => s3.label == data.awsAccount) = some cred)
    (hsec : strTruthy cred.secretKey = true)
    (hacc : strTruthy cred.accessKey = true)
    (hc : data.cloud = "s3") :
    create env data params =
      (match addObjectS3 env data cred (params.user.map User.uid) with
       | (Except.ok u, t) =>
         ({ status := "success", data := .payload u.location u.mid u.name }, t)
       | (Except.error e, t) => (createCatch e, t)) := by
  rcases ho : addObjectS3 env data cred (params.user.map User.uid) with ⟨r, t⟩
  cases r <;>
    simp [create, createBody, hs, hd, ha, hf, hc, hsec, hacc, CLOUD_SITES.S3, ho, mbind]

/- concrete fixtures for witnesses -/

/-- a media record used as the stub store content -/
def stubRecord : MediaRecord :=
  { mid := "m0", userId := "u1", name := "old.html", thumb := "https://loc/k", key := "k",
    bucket := "b", region := "eu-west-1", type := "html", cloud := "s3" }

/-- an environment where every collaborator succeeds -/
def stubEnv : Env :=
  { settingsFind := fun _ => Except.ok { data := [] },
    s3CreateBucket := fun _ _ => Except.ok (),
    s3ListBuckets := fun _ => Except.ok { buckets := [] },
    s3UploadDone := fun _ b k _ =>
      Except.ok { location := "https://loc/" ++ k, bucket := b, key := k },
    s3GetObject := fun _ _ _ => Except.ok "<p>hi</p>",
    s3PutObject := fun _ _ _ _ => Except.ok (),
    mediaCreate := fun d =>
      Except.ok { mid := "m1", userId := d.userId, name := d.name, thumb := d.thumb,
                  key := d.key, bucket := d.bucket, region := d.region, type := d.type,
                  cloud := d.cloud },
    mediaGet := fun _ => Except.ok stubRecord,
    mediaFind := fun _ => Except.ok { data := [] },
    mediaPatch := fun _ name => Except.ok { stubRecord with name := name },
    s3Directory := "dir",
    s3RegionEnv := "us-east-1" }

/-- a valid credential set -/
def okCred : S3Cred := { label := "acct1", accessKey := "AK", secretKey := "SK" }

/-- a credential set with no secret key -/
def noSecretCred : S3Cred := { label := "acct1", accessKey := "AK", secretKey := "" }

/-- params with an authenticated user -/
def userParams : Params := { user := some { uid := "u1" } }

/-- a create request for the s3 branch -/
def s3Data : CreateData :=
  { cloud := "s3", awsAccount := "acct1", bucket := "b", newBucket := true,
    region := "eu-west-1", name := "doc.html", html := "<p>hi</p>" }

/- C1 -/

/-- C1: when the settings lookup resolves and the credential set selected by the
request's account label is missing the access key or the secret key (or both),
create returns status error with the exact message, and the empty trace shows no
provider call and no metadata write was attempted. -/
theorem create_missing_credentials_error (env : Env) (data : CreateData) (params : Params)
    (settings : SettingsFindOut) (doc : SettingsDoc) (awsS3 : List S3Cred)
    (hs : env.settingsFind (params.user.map User.uid) = Except.ok settings)
    (hd : settings.data.head? = some doc)
    (ha : doc.awsS3 = some awsS3)
    (hc : data.cloud = "s3")
    (hm : credentialsMissing (awsS3.find? (fun s3 => s3.label == data.awsAccount)) = true) :
    create env data params =
      ({ status := "error", data := .msg "AWS credentials are missing." }, []) := by
  cases hsel : awsS3.find? (fun s3 => s3.label == data.awsAccount) with
  | none =>
    simp [create, createBody, hs, hd, ha, hc, hsel, CLOUD_SITES.S3]
  | some cred =>
    have hkeys : (!strTruthy cred.secretKey || !strTruthy cred.accessKey) = true := by
      simpa [credentialsMissing, hsel] using hm
    cases hks : strTruthy cred.secretKey <;> cases hka : strTruthy cred.accessKey
    · simp [create, createBody, hs, hd, ha, hc, hsel, CLOUD_SITES.S3, hks, hka]
    · simp [create, createBody, hs, hd, ha, hc, hsel, CLOUD_SITES.S3, hks, hka]
    · simp [create, createBody, hs, hd, ha, hc, hsel, CLOUD_SITES.S3, hks, hka]
    · rw [hks, hka] at hkeys
      simp at hkeys

/-- settings whose only credential set has no secret key -/
def settingsNoSecret : SettingsFindOut := { data := [{ awsS3 := some [noSecretCred] }] }

/-- an environment that resolves to the secretless credential set -/
def envNoSecret : Env := { stubEnv with settingsFind := fun _ => Except.ok settingsNoSecret }

/-- C1 witness: a concrete s3 create request against a credential set
with an empty secret key. -/
theorem create_missing_credentials_error_witness :
    create envNoSecret s3Data userParams =
      ({ status := "error", data := .msg "AWS credentials are missing." }, []) :=
  create_missing_credentials_error envNoSecret s3Data userParams settingsNoSecret
    { awsS3 := some [noSecretCred] } [noSecretCred] rfl rfl rfl rfl (by decide)

/- C2 -/

/-- C2: whenever the try-block of create throws an error, the handler returns the
fixed message matching the error's Code for each of the four AWS error codes, and
the generic fallback message for every other code (including errors with no code). -/
theorem create_error_code_mapping (env : Env) (data : CreateData) (params : Params)
    (e : JsErr) (t : List Event)
    (h : createBody env data params = (Except.error e, t)) :
    (e.codeOf = some "NoSuchBucket" →
      (create env data params).1 =
        { status := "error", data := .msg "The specified bucket does not exist." }) ∧
    (e.codeOf = some "InvalidBucketName" →
      (create env data params).1 =
        { status := "error", data := .msg "The specified bucket is not valid." }) ∧
    (e.codeOf = some "BucketAlreadyExists" →
      (create env data params).1 =
        { status := "error", data := .msg "The specified bucket already exists." }) ∧
    (e.codeOf = some "BucketAlreadyOwnedByYou" →
      (create env data params).1 =
        { status := "error", data := .msg "The specified bucket already owned by you." }) ∧
    (e.codeOf ≠ some "NoSuchBucket" → e.codeOf ≠ some "InvalidBucketName" →
     e.codeOf ≠ some "BucketAlreadyExists" → e.codeOf ≠ some "BucketAlreadyOwnedByYou" →
      (create env data params).1 =
        { status := "error", data := .msg "Something went wrong. Please try again!" }) := by
  have hcr : (create env data params).1 = createCatch e := by
    unfold create
    rw [h]
  refine ⟨?_, ?_, ?_, ?_, ?_⟩
  · intro hc
    rw [hcr]
    unfold createCatch
    rw [hc]
    rfl
  · intro hc
    rw [hcr]
    unfold createCatch
    rw [hc]
    rfl
  · intro hc
    rw [hcr]
    unfold createCatch
    rw [hc]
    rfl
  · intro hc
    rw [hcr]
    unfold createCatch
    rw [hc]
    rfl
  · intro h1 h2 h3 h4
    rw [hcr]
    unfold createCatch
    cases hcode : e.codeOf with
    | none => rfl
    | some c =>
      rw [hcode] at h1 h2 h3 h4
      simp only [ne_eq, Option.some.injEq] at h1 h2 h3 h4
      dsimp only
      rw [if_neg (by simpa [AWS_ERROR_CODES.NO_SUCH_BUCKET] using h1),
          if_neg (by simpa [AWS_ERROR_CODES.INVALID_BUCKET_NAME] using h2),
          if_neg (by simpa [AWS_ERROR_CODES.BUCKET_ALREADY_EXISTS] using h3),
          if_neg (by simpa [AWS_ERROR_CODES.BUCKET_ALREADY_OWNED_BY_YOU] using h4)]

/-- settings with the valid credential set -/
def settingsOk : SettingsFindOut := { data := [{ awsS3 := some [okCred] }] }

/-- an environment whose bucket creation fails with NoSuchBucket -/
def envNoSuchBucket : Env :=
  { stubEnv with
    settingsFind := fun _ => Except.ok settingsOk,
    s3CreateBucket := fun _ _ => Except.error (JsErr.provider "NoSuchBucket") }

/-- C2 witness: a concrete run whose bucket creation throws NoSuchBucket maps to
the fixed message. -/
theorem create_error_code_mapping_witness :
    (create envNoSuchBucket s3Data userParams).1 =
      { status := "error", data := .msg "The specified bucket does not exist." } :=
  (create_error_code_mapping envNoSuchBucket s3Data userParams (JsErr.provider "NoSuchBucket")
      [Event.s3CreateBucket
        { region := "eu-west-1", accessKeyId := "AK", secretAccessKey := "SK" } "b"]
      rfl).1 rfl

/- C6 -/

/-- C6: once create reaches the s3 upload path (settings resolved, credential set
selected and both keys truthy), the bucket-creation SDK call appears in the trace
exactly when data.bucket is truthy and data.newBucket is true; and when the
bucket-creation call fails, create returns status error and the trace carries no
upload and no media-record write. -/
theorem create_bucket_creation_guard (env : Env) (data : CreateData) (params : Params)
    (settings : SettingsFindOut) (doc : SettingsDoc) (awsS3 : List S3Cred) (cred : S3Cred)
    (hs : env.settingsFind (params.user.map User.uid) = Except.ok settings)
    (hd : settings.data.head? = some doc)
    (ha : doc.awsS3 = some awsS3)
    (hf : awsS3.find? (fun s3 => s3.label == data.awsAccount) = some cred)
    (hsec : strTruthy cred.secretKey = true)
    (hacc : strTruthy cred.accessKey = true)
    (hc : data.cloud = "s3") :
    ((∃ c, Event.s3CreateBucket c data.bucket ∈ (create env data params).2) ↔
       (strTruthy data.bucket && data.newBucket) = true) ∧
    (∀ eb : JsErr, (strTruthy data.bucket && data.newBucket) = true →
       (∀ c, env.s3CreateBucket c data.bucket = Except.error eb) →
       (create env data params).1.status = "error" ∧
       (∀ c b k bd, Event.s3Upload c b k bd ∉ (create env data params).2) ∧
       (∀ d, Event.mediaCreate d ∉ (create env data params).2)) := by
  have hcr := create_s3_eq env data params settings doc awsS3 cred hs hd ha hf hsec hacc hc
  have ht : (create env data params).2 =
      (addObjectS3 env data cred (params.user.map User.uid)).2 := by
    rw [hcr]
    rcases addObjectS3 env data cred (params.user.map User.uid) with ⟨r, t⟩
    cases r <;> rfl
  constructor
  · constructor
    · rintro ⟨c, hmem⟩
      rw [ht, mem_addObjectS3_trace] at hmem
      by_contra hcond
      rw [Bool.not_eq_true] at hcond
      rw [bucketStep_skip env data cred hcond] at hmem
      rcases hmem with hnil | ⟨u, _, hrest⟩
      · simp at hnil
      · rcases hrest with hregmem | ⟨region, _, hup | ⟨up, _, hsave⟩⟩
        · rcases regionStep_trace env data (params.user.map User.uid) _ hregmem with ⟨q, hq⟩
          simp at hq
        · rcases s3Upload_trace env (params.user.map User.uid) data data.bucket _ _ hup with
            ⟨c2, k2, hk⟩
          simp at hk
        · rw [saveToDatabase_trace] at hsave
          simp at hsave
    · intro hcond
      refine ⟨clientOf cred.accessKey cred.secretKey data.region, ?_⟩
      rw [ht, mem_addObjectS3_trace]
      left
      rw [bucketStep_run env data cred hcond hacc hsec]
      simp
  · intro eb hcond hfail
    have hAe : addObjectS3 env data cred (params.user.map User.uid) =
        (Except.error eb,
         [Event.s3CreateBucket (clientOf cred.accessKey cred.secretKey data.region) data.bucket]) := by
      unfold addObjectS3
      rw [bucketStep_run env data cred hcond hacc hsec, hfail]
      rfl
    rw [hAe] at hcr
    refine ⟨?_, ?_, ?_⟩
    · rw [hcr]
      exact createCatch_status eb
    · intro c b k bd hmem
      rw [hcr] at hmem
      simp at hmem
    · intro d hmem
      rw [hcr] at hmem
      simp at hmem

/-- C6 witness: a concrete run with bucket set and newBucket true whose
bucket creation fails. -/
theorem create_bucket_creation_guard_witness :
    (∃ c, Event.s3CreateBucket c s3Data.bucket ∈ (create envNoSuchBucket s3Data userParams).2) ∧
    (create envNoSuchBucket s3Data userParams).1.status = "error" :=
  have h := create_bucket_creation_guard envNoSuchBucket s3Data userParams settingsOk
    { awsS3 := some [okCred] } [okCred] okCred rfl rfl rfl rfl rfl rfl rfl
  ⟨h.1.mpr (by decide),
   (h.2 (JsErr.provider "NoSuchBucket") (by decide) (fun _ => rfl)).1⟩

/- C5 -/

/-- C5: in the s3 upload path, when the request supplies no region and the user's
prior media records for that bucket are exactly one record, every upload in the
trace is performed with a client bound to that record's region and every media
document written carries that region. -/
theorem create_region_inference (env : Env) (data : CreateData) (params : Params)
    (settings : SettingsFindOut) (doc : SettingsDoc) (awsS3 : List S3Cred) (cred : S3Cred)
    (rec0 : MediaRecord)
    (hs : env.settingsFind (params.user.map User.uid) = Except.ok settings)
    (hd : settings.data.head? = some doc)
    (ha : doc.awsS3 = some awsS3)
    (hf : awsS3.find? (fun s3 => s3.label == data.awsAccount) = some cred)
    (hsec : strTruthy cred.secretKey = true)
    (hacc : strTruthy cred.accessKey = true)
    (hc : data.cloud = "s3")
    (hr : strTruthy data.region = false)
    (hm : env.mediaFind [("userId", jsShow (params.user.map User.uid)), ("bucket", data.bucket)]
            = Except.ok { data := [rec0] })
    (hrr : strTruthy rec0.region = true) :
    (∀ c b k bd, Event.s3Upload c b k bd ∈ (create env data params).2 → c.region = rec0.region) ∧
    (∀ d, Event.mediaCreate d ∈ (create env data params).2 → d.region = rec0.region) := by
  have hcr := create_s3_eq env data params settings doc awsS3 cred hs hd ha hf hsec hacc hc
  have ht : (create env data params).2 =
      (addObjectS3 env data cred (params.user.map User.uid)).2 := by
    rw [hcr]
    rcases addObjectS3 env data cred (params.user.map User.uid) with ⟨r, t⟩
    cases r <;> rfl
  have hreg : regionStep env data (params.user.map User.uid) =
      (Except.ok rec0.region,
       [Event.mediaFind [("userId", jsShow (params.user.map User.uid)), ("bucket", data.bucket)]]) := by
    rw [regionStep_infer env data (params.user.map User.uid) { data := [rec0] } hr hm]
    rfl
  constructor
  · intro c b k bd hmem
    rw [ht, mem_addObjectS3_trace] at hmem
    rcases hmem with hbs | ⟨u, _, hrest⟩
    · rcases bucketStep_trace env data cred _ hbs with ⟨c2, h2⟩
      simp at h2
    · rcases hrest with hregmem | ⟨region, hregok, hrest2⟩
      · rw [hreg] at hregmem
        simp at hregmem
      · rw [hreg] at hregok
        simp only [Except.ok.injEq] at hregok
        subst hregok
        rcases hrest2 with hup | ⟨up, _, hsave⟩
        · rw [s3Upload_trace_run env (params.user.map User.uid) data data.bucket cred rec0.region
              hacc hsec] at hup
          simp only [List.mem_singleton, Event.s3Upload.injEq] at hup
          rcases hup with ⟨hcl, _, _, _⟩
          rw [hcl]
          simp [clientOf, hrr]
        · rw [saveToDatabase_trace] at hsave
          simp at hsave
  · intro d hmem
    rw [ht, mem_addObjectS3_trace] at hmem
    rcases hmem with hbs | ⟨u, _, hrest⟩
    · rcases bucketStep_trace env data cred _ hbs with ⟨c2, h2⟩
      simp at h2
    · rcases hrest with hregmem | ⟨region, hregok, hrest2⟩
      · rw [hreg] at hregmem
        simp at hregmem
      · rw [hreg] at hregok
        simp only [Except.ok.injEq] at hregok
        subst hregok
        rcases hrest2 with hup | ⟨up, _, hsave⟩
        · rcases s3Upload_trace env (params.user.map User.uid) data data.bucket _ _ hup with
            ⟨c2, k2, hk⟩
          simp at hk
        · rw [saveToDatabase_trace] at hsave
          simp only [List.mem_singleton, Event.mediaCreate.injEq] at hsave
          rw [hsave]
          rfl

/-- a prior media record in bucket b with region ap-south-1 -/
def priorRec : MediaRecord :=
  { mid := "m9", userId := "u1", name := "prior.html", thumb := "https://loc/p", key := "p",
    bucket := "b", region := "ap-south-1", type := "html", cloud := "s3" }

/-- an environment whose media store holds exactly priorRec for the user and bucket -/
def envPrior : Env :=
  { stubEnv with
    settingsFind := fun _ => Except.ok settingsOk,
    mediaFind := fun _ => Except.ok { data := [priorRec] } }

/-- the create request with no region supplied -/
def noRegionData : CreateData := { s3Data with region := "", newBucket := false }

/-- C5 witness: the concrete upload client of the run carries the prior record's
region. -/
theorem create_region_inference_witness :
    Event.s3Upload { region := "ap-south-1", accessKeyId := "AK", secretAccessKey := "SK" }
        "b" "dir/u1/doc.html" "<p>hi</p>" ∈ (create envPrior noRegionData userParams).2 ∧
    (({ region := "ap-south-1", accessKeyId := "AK", secretAccessKey := "SK" } : S3Client)).region
        = priorRec.region :=
  have h := create_region_inference envPrior noRegionData userParams settingsOk
    { awsS3 := some [okCred] } [okCred] okCred priorRec rfl rfl rfl rfl rfl rfl rfl rfl rfl rfl
  ⟨by decide, h.1 _ "b" "dir/u1/doc.html" "<p>hi</p>" (by decide)⟩

/- C10 -/

/-- the trace of create is empty unless the s3 upload path ran, in which case it
is the trace of addObjectS3 for the selected credential set. -/
theorem create_trace_cases (env : Env) (data : CreateData) (params : Params) :
    (create env data params).2 = [] ∨
    ∃ cred, (create env data params).2 =
      (addObjectS3 env data cred (params.user.map User.uid)).2 := by
  rw [create_trace_eq]
  unfold createBody
  dsimp only
  cases hs : env.settingsFind (params.user.map User.uid) with
  | error e => left; simp [mbind]
  | ok settings =>
    cases hd : settings.data.head? with
    | none => left; simp [mbind, hd]
    | some doc =>
      cases ha : doc.awsS3 with
      | none => left; simp [mbind, hd, ha]
      | some awsS3 =>
        by_cases hcl : (data.cloud == CLOUD_SITES.S3) = true
        · cases hfind : awsS3.find? (fun s3 => s3.label == data.awsAccount) with
          | none => left; simp [mbind, hd, ha, hcl, hfind]
          | some cred =>
            by_cases hkeys : (!strTruthy cred.secretKey || !strTruthy cred.accessKey) = true
            · left
              simp [mbind, hd, ha, hcl, hfind, hkeys]
            · right
              refine ⟨cred, ?_⟩
              rcases hA : addObjectS3 env data cred (params.user.map User.uid) with ⟨r, t⟩
              cases r <;> simp [mbind, hd, ha, hcl, hfind, hkeys, hA]
        · left
          simp [mbind, hd, ha, hcl]

/-- a successful upload step comes from a successful SDK upload whose response
fields make up the returned value, and its event is in the step's trace. -/
theorem s3Upload_ok_inv (env : Env) (uid : Option String) (data : CreateData) (bucket : String)
    (creds : UploadCredentials) (up : UploadRet)
    (h : (s3Upload env uid data bucket creds).1 = Except.ok up) :
    ∃ c uf, env.s3UploadDone c bucket (keyOf env uid data) data.html = Except.ok uf ∧
      up = { location := uf.location, bucket := uf.bucket, key := uf.key } ∧
      Event.s3Upload c bucket (keyOf env uid data) data.html
        ∈ (s3Upload env uid data bucket creds).2 := by
  unfold s3Upload at h ⊢
  cases hc : createS3Client creds.awsS3.accessKey creds.awsS3.secretKey creds.region with
  | error e =>
    rw [hc] at h
    simp at h
  | ok s3 =>
    rw [hc] at h
    dsimp only at h ⊢
    cases henv : env.s3UploadDone s3 bucket (keyOf env uid data) data.html with
    | error e =>
      rw [henv] at h
      simp at h
    | ok uf =>
      rw [henv] at h
      simp only [Except.ok.injEq] at h
      exact ⟨s3, uf, henv, h.symm, by simp⟩

/-- C10: every media document handed to the media store by create carries type
html, the request's cloud tag, and the location (thumb), key and bucket returned
by the upload SDK call recorded in the same trace. -/
theorem create_media_record_fields (env : Env) (data : CreateData) (params : Params)
    (d : NewMediaRecord)
    (hm : Event.mediaCreate d ∈ (create env data params).2) :
    d.type = "html" ∧ d.cloud = data.cloud ∧
    ∃ c b k bd uf, Event.s3Upload c b k bd ∈ (create env data params).2 ∧
      env.s3UploadDone c b k bd = Except.ok uf ∧
      d.thumb = uf.location ∧ d.key = uf.key ∧ d.bucket = uf.bucket := by
  rcases create_trace_cases env data params with h0 | ⟨cred, hA⟩
  · rw [h0] at hm
    simp at hm
  · rw [hA] at hm ⊢
    rw [mem_addObjectS3_trace] at hm
    rcases hm with hbs | ⟨u, hbu, hrest⟩
    · rcases bucketStep_trace env data cred _ hbs with ⟨c2, h2⟩
      simp at h2
    · rcases hrest with hregmem | ⟨region, hregok, hrest2⟩
      · rcases regionStep_trace env data (params.user.map User.uid) _ hregmem with ⟨q, hq⟩
        simp at hq
      · rcases hrest2 with hup | ⟨up, hupok, hsave⟩
        · rcases s3Upload_trace env (params.user.map User.uid) data data.bucket _ _ hup with
            ⟨c2, k2, hk⟩
          simp at hk
        · rw [saveToDatabase_trace] at hsave
          simp only [List.mem_singleton, Event.mediaCreate.injEq] at hsave
          subst hsave
          rcases s3Upload_ok_inv env (params.user.map User.uid) data data.bucket _ up hupok with
            ⟨c2, uf, henv, hupval, hmemup⟩
          refine ⟨rfl, rfl, c2, data.bucket, keyOf env (params.user.map User.uid) data,
            data.html, uf, ?_, henv, ?_, ?_, ?_⟩
          · rw [mem_addObjectS3_trace]
            exact Or.inr ⟨u, hbu, Or.inr ⟨region, hregok, Or.inl hmemup⟩⟩
          · simp [hupval, mediaDocOf]
          · simp [hupval, mediaDocOf]
          · simp [hupval, mediaDocOf]

/-- an environment with valid stored credentials and all-ok collaborators -/
def envOkAll : Env := { stubEnv with settingsFind := fun _ => Except.ok settingsOk }

/-- the media document the witness run writes -/
def uploadedDoc : NewMediaRecord :=
  { userId := "u1", name := "doc.html", thumb := "https://loc/dir/u1/doc.html",
    key := "dir/u1/doc.html", bucket := "b", region := "eu-west-1", type := "html",
    cloud := "s3" }

/-- C10 witness: the document written by a concrete successful create. -/
theorem create_media_record_fields_witness :
    uploadedDoc.type = "html" ∧ uploadedDoc.cloud = s3Data.cloud ∧
    ∃ c b k bd uf, Event.s3Upload c b k bd ∈ (create envOkAll s3Data userParams).2 ∧
      envOkAll.s3UploadDone c b k bd = Except.ok uf ∧
      uploadedDoc.thumb = uf.location ∧ uploadedDoc.key = uf.key ∧
      uploadedDoc.bucket = uf.bucket :=
  create_media_record_fields envOkAll s3Data userParams uploadedDoc (by decide)

/- C7 -/

/-- the catch result of create always carries a message string -/
theorem createCatch_msg (e : JsErr) : ∃ m, (createCatch e).data = CreateResData.msg m := by
  unfold createCatch
  cases e.codeOf
  · exact ⟨_, rfl⟩
  · dsimp only
    split_ifs <;> exact ⟨_, rfl⟩

/-- every value returned by the try-block of create has status success or error,
with a message string when the status is error -/
theorem createBody_ok_status (env : Env) (data : CreateData) (params : Params)
    (r : CreateResult) (t : List Event)
    (h : createBody env data params = (Except.ok r, t)) :
    (r.status = "success" ∨ r.status = "error") ∧
    (r.status = "error" → ∃ m, r.data = CreateResData.msg m) := by
  unfold createBody at h
  dsimp only at h
  cases hs : env.settingsFind (params.user.map User.uid) <;> rw [hs] at h
  · simp [mbind] at h
  · rename_i settings
    simp only [mbind_ok, List.nil_append] at h
    cases hd : settings.data.head? <;> rw [hd] at h
    · simp at h
    · rename_i doc
      dsimp only at h
      cases ha : doc.awsS3 <;> rw [ha] at h
      · simp at h
      · rename_i awsS3
        dsimp only at h
        by_cases hcl : (data.cloud == CLOUD_SITES.S3) = true <;> simp only [hcl] at h
        · cases hfind : awsS3.find? (fun s3 => s3.label == data.awsAccount) <;> rw [hfind] at h
          · simp only [if_true, Prod.mk.injEq, Except.ok.injEq] at h
            rw [← h.1]
            simp
          · rename_i cred
            by_cases hkeys : (!strTruthy cred.secretKey || !strTruthy cred.accessKey) = true <;>
              simp only [hkeys, if_true, if_false, Bool.false_eq_true] at h
            · simp only [if_true, Prod.mk.injEq, Except.ok.injEq] at h
              rw [← h.1]
              simp
            · rcases hA : addObjectS3 env data cred (params.user.map User.uid) with ⟨r1, t1⟩
              rw [hA] at h
              cases r1 with
              | error e => simp [mbind] at h
              | ok u =>
                simp only [mbind_ok, Prod.mk.injEq, Except.ok.injEq] at h
                rw [← h.1]
                simp
        · simp only [Bool.false_eq_true, if_false, Prod.mk.injEq, Except.ok.injEq] at h
          rw [← h.1]
          simp

/-- every value returned by the try-block of find has status success -/
theorem findBody_ok_status (env : Env) (params : FindParams) (r : FindResult) (t : List Event)
    (h : findBody env params = (Except.ok r, t)) : r.status = "success" := by
  unfold findBody at h
  by_cases hb : params.query.hasBucketList = true <;> simp only [hb] at h
  · cases hs : env.settingsFind (params.user.map User.uid) <;> rw [hs] at h
    · simp [mbind] at h
    · rename_i settings
      simp only [mbind_ok, List.nil_append] at h
      cases hd : settings.data.head? <;> rw [hd] at h
      · simp at h
      · rename_i doc
        dsimp only at h
        rcases hg : getBucketList env (doc.awsS3.map S3DataArg.credList) with ⟨r1, t1⟩
        rw [hg] at h
        cases r1 with
        | error e => simp [mbind] at h
        | ok lst =>
          simp only [if_true, mbind_ok, Prod.mk.injEq, Except.ok.injEq] at h
          rw [← h.1]
  · unfold getMedia at h
    simp only [Bool.false_eq_true, if_false] at h
    cases hm : env.mediaFind (withTypeHtml params.query.fields) <;> rw [hm] at h
    · simp [mbind] at h
    · simp only [mbind_ok, Prod.mk.injEq, Except.ok.injEq] at h
      rw [← h.1]

/-- C7: for every environment and every input, each of the four handlers returns a
status/data value whose status is success or error, with a message string on error
— no thrown collaborator failure escapes a handler. -/
theorem handlers_return_structured_results (env : Env) :
    (∀ data params, ((create env data params).1.status = "success" ∨
        (create env data params).1.status = "error") ∧
      ((create env data params).1.status = "error" →
        ∃ m, (create env data params).1.data = CreateResData.msg m)) ∧
    (∀ params, ((find env params).1.status = "success" ∨
        (find env params).1.status = "error") ∧
      ((find env params).1.status = "error" →
        ∃ m, (find env params).1.data = FindResData.msg m)) ∧
    (∀ id params, ((get env id params).1.status = "success" ∨
        (get env id params).1.status = "error") ∧
      ((get env id params).1.status = "error" →
        ∃ m, (get env id params).1.data = GetResData.msg m)) ∧
    (∀ id data params, ((update env id data params).1.status = "success" ∨
        (update env id data params).1.status = "error") ∧
      ((update env id data params).1.status = "error" →
        ∃ m, (update env id data params).1.data = UpdateResData.msg m)) := by
  refine ⟨?_, ?_, ?_, ?_⟩
  · intro data params
    unfold create
    rcases hb : createBody env data params with ⟨r1, t1⟩
    cases r1 with
    | error e =>
      dsimp only
      exact ⟨Or.inr (createCatch_status e), fun _ => createCatch_msg e⟩
    | ok r =>
      dsimp only
      exact createBody_ok_status env data params r t1 hb
  · intro params
    unfold find
    rcases hb : findBody env params with ⟨r1, t1⟩
    cases r1 with
    | error e =>
      exact ⟨Or.inr rfl, fun _ => ⟨_, rfl⟩⟩
    | ok r =>
      dsimp only
      have hr := findBody_ok_status env params r t1 hb
      refine ⟨Or.inl hr, fun hco => ?_⟩
      rw [hr] at hco
      exact absurd hco (by decide)
  · intro id params
    unfold get getBody getMediaById getS3File
    cases hg : env.mediaGet id <;> simp [mbind, hg]
  · intro id data params
    unfold update updateBody getMediaById updateS3File
    cases hg : env.mediaGet data.mid <;> cases hu : params.user <;> simp [mbind, hg, hu]

/- C8 -/

/-- C8: a find whose query contains the bucketList key always returns the generic
error, whatever the stored credentials: the handler passes the whole awsS3 array
where getBucketList expects a single credential object, so the destructured keys
are undefined and client construction fails before any list-buckets request. -/
theorem find_bucketList_always_error (env : Env) (params : FindParams)
    (h : params.query.hasBucketList = true) :
    (find env params).1 =
      { status := "error", data := .msg "Something went wrong. Please try again!" } := by
  cases hs : env.settingsFind (params.user.map User.uid) with
  | error e => simp [find, findBody, h, hs, mbind]
  | ok settings =>
    cases hd : settings.data.head? with
    | none => simp [find, findBody, h, hs, hd, mbind]
    | some doc =>
      cases ha : doc.awsS3 with
      | none => simp [find, findBody, h, hs, hd, ha, mbind, getBucketList]
      | some l =>
        simp [find, findBody, h, hs, hd, ha, mbind, getBucketList, createS3Client,
          S3DataArg.accessKeyOf, S3DataArg.secretKeyOf, strTruthy]

/-- params asking for the bucket list -/
def bucketListParams : FindParams :=
  { query := { hasBucketList := true, fields := [] }, user := some { uid := "u1" } }

/-- C8 witness: the bucket list request fails even against an environment with a
valid stored credential set and a healthy provider. -/
theorem find_bucketList_always_error_witness :
    (find envOkAll bucketListParams).1 =
      { status := "error", data := .msg "Something went wrong. Please try again!" } :=
  find_bucketList_always_error envOkAll bucketListParams rfl

/- C9 -/

/-- an environment whose settings service is unavailable -/
def envSettingsDown : Env :=
  { stubEnv with settingsFind := fun _ => Except.error (JsErr.jsError "settings unavailable") }

/-- a create request for a cloud other than s3 -/
def gdriveData : CreateData := { s3Data with cloud := "gdrive" }

/-- C9 counterexample: a non-s3 create request does not always return success with
undefined data — the settings lookup precedes the cloud dispatch, and when it
throws, create returns the generic error. -/
theorem create_non_s3_not_always_success :
    gdriveData.cloud ≠ "s3" ∧
    (create envSettingsDown gdriveData userParams).1 =
      { status := "error", data := .msg "Something went wrong. Please try again!" } :=
  ⟨by decide, rfl⟩

/-- C9 amended: provided the settings lookup resolves to a first document carrying
an awsS3 list, a create whose cloud is not s3 returns status success with
undefined data, and its empty trace shows no credential check, no provider call
and no metadata write. -/
theorem create_non_s3_success (env : Env) (data : CreateData) (params : Params)
    (settings : SettingsFindOut) (doc : SettingsDoc) (awsS3 : List S3Cred)
    (hs : env.settingsFind (params.user.map User.uid) = Except.ok settings)
    (hd : settings.data.head? = some doc)
    (ha : doc.awsS3 = some awsS3)
    (hc : data.cloud ≠ "s3") :
    create env data params = ({ status := "success", data := .undef }, []) := by
  have hcl : (data.cloud == CLOUD_SITES.S3) = false := by
    simpa [CLOUD_SITES.S3] using hc
  simp [create, createBody, hs, hd, ha, hcl, mbind]

/-- C9 amended witness: a gdrive create request against a healthy settings
service. -/
theorem create_non_s3_success_witness :
    create envOkAll gdriveData userParams = ({ status := "success", data := .undef }, []) :=
  create_non_s3_success envOkAll gdriveData userParams settingsOk
    { awsS3 := some [okCred] } [okCred] rfl rfl rfl (by decide)

end CloudSvc
